import Mathlib

/-!
Shallow embedding of the concurrent ticket-tracking store exercises
(repository: 100-exercises-to-learn-rust, user solutions).

The authoritative store lives in exercises/08_futures/08_outro
(ticket.rs, ticket_store.rs); the actor front-ends live in
exercises/07_threads (07_ack, 08_client, 09_bounded).

Rust strings are modelled as Lean String; Rust byte length
(String::len) is modelled as String.utf8ByteSize.  Mutation through
&mut self is modelled by explicit state passing: a Rust method
fn f(&mut self, ...) -> Result<(), E> becomes a Lean function
returning Except E Unit paired with the post-state.
-/

/-- Status enumeration from ticket.rs: ToDo, InProgress, Done. -/
inductive TicketStatus
  | ToDo
  | InProgress
  | Done
deriving DecidableEq, Repr

/-- TicketId(u64) from ticket.rs: an opaque integer handle, keyed by value. -/
structure TicketId where
  val : Nat
deriving DecidableEq, Repr

/-- TicketTitle(String) from ticket.rs. -/
structure TicketTitle where
  val : String
deriving DecidableEq, Repr

/-- TicketDescription(String) from ticket.rs. -/
structure TicketDescription where
  val : String
deriving DecidableEq, Repr

/-- Ticket from ticket.rs, fields in source order. -/
structure Ticket where
  title : TicketTitle
  description : TicketDescription
  id : TicketId
  status : TicketStatus
deriving DecidableEq, Repr

/-- TicketPatch from ticket.rs: optional field updates plus the target id. -/
structure TicketPatch where
  id : TicketId
  title : Option TicketTitle
  description : Option TicketDescription
  status : Option TicketStatus
deriving DecidableEq, Repr

/-- TicketUpdateError from ticket.rs: identity mismatch carrying both ids. -/
structure TicketUpdateError where
  original_id : TicketId
  patch_id : TicketId
deriving DecidableEq, Repr

/-- TicketParseError from ticket.rs, variants in source order. -/
inductive TicketParseError
  | StatusParseError (s : String)
  | TitleTooLongError (s : String)
  | DebugTooLongError (s : String)
  | TitleEmptyError (s : String)
  | DebugEmptyError (s : String)
deriving DecidableEq, Repr

/-- Ticket::update from ticket.rs: rejects a patch whose id differs from the
ticket's id, otherwise replaces each field the patch supplies.  The second
component is the post-state of the ticket (unchanged on error, since the
Rust method returns before any field assignment). -/
def Ticket.update (t : Ticket) (patch : TicketPatch) :
    Except TicketUpdateError Unit × Ticket :=
  if t.id ≠ patch.id then
    (Except.error { original_id := t.id, patch_id := patch.id }, t)
  else
    let t1 := match patch.title with
      | some title => { t with title := title }
      | none => t
    let t2 := match patch.description with
      | some d => { t1 with description := d }
      | none => t1
    let t3 := match patch.status with
      | some s => { t2 with status := s }
      | none => t2
    (Except.ok (), t3)

/-- Model of str::to_lowercase used by the status parser: lowercases each
character (ASCII case mapping, which covers every character of the three
recognized tokens).  Written as a structural map over the character list so
that it evaluates by kernel reduction. -/
def toLowercase (s : String) : String := String.mk (s.data.map Char.toLower)

/-- TryFrom for TicketStatus from ticket.rs: match on to_lowercase of the
input; an unrecognized token yields StatusParseError carrying the original
string. -/
def TicketStatus.tryFrom (value : String) : Except TicketParseError TicketStatus :=
  if toLowercase value = "todo" then Except.ok TicketStatus.ToDo
  else if toLowercase value = "inprogress" then Except.ok TicketStatus.InProgress
  else if toLowercase value = "done" then Except.ok TicketStatus.Done
  else Except.error (TicketParseError.StatusParseError value)

/-- TryFrom for TicketTitle from ticket.rs: empty input fails with
TitleEmptyError, more than 50 bytes fails with TitleTooLongError. -/
def TicketTitle.tryFrom (value : String) : Except TicketParseError TicketTitle :=
  if value.isEmpty then Except.error (TicketParseError.TitleEmptyError value)
  else if value.utf8ByteSize > 50 then
    Except.error (TicketParseError.TitleTooLongError value)
  else Except.ok { val := value }

/-- TryFrom for TicketDescription from ticket.rs: empty input fails with
DebugEmptyError, more than 500 bytes fails with DebugTooLongError. -/
def TicketDescription.tryFrom (value : String) :
    Except TicketParseError TicketDescription :=
  if value.isEmpty then Except.error (TicketParseError.DebugEmptyError value)
  else if value.utf8ByteSize > 500 then
    Except.error (TicketParseError.DebugTooLongError value)
  else Except.ok { val := value }

/-- PatchError from ticket_store.rs: NotFound carries the requested id,
Mismatch transparently wraps the TicketUpdateError from Ticket::update. -/
inductive PatchError
  | NotFound (id : TicketId)
  | Mismatch (e : TicketUpdateError)
deriving DecidableEq, Repr

/-- TicketStore from ticket_store.rs: the BTreeMap from TicketId to Ticket
is modelled as a function map. -/
def TicketStore := TicketId → Option Ticket

/-- TicketStore::new from ticket_store.rs: the empty map. -/
def TicketStore.new : TicketStore := fun _ => none

/-- TicketStore::get from ticket_store.rs: a cloned copy of the entry, or
none. -/
def TicketStore.get (s : TicketStore) (id : TicketId) : Option Ticket := s id

/-- TicketStore::insert from ticket_store.rs: unconditionally inserts or
overwrites the entry keyed by the ticket's id; the Rust method returns unit,
so in the model insert is total (it cannot fail). -/
def TicketStore.insert (s : TicketStore) (ticket : Ticket) : TicketStore :=
  fun k => if k = ticket.id then some ticket else s k

/-- TicketStore::patch from ticket_store.rs: looks up the entry for id under
the write lock; absent entries yield NotFound, present entries are updated in
place via Ticket::update, whose error propagates wrapped in Mismatch.  The
second component is the post-state of the store (the in-place mutation writes
the updated ticket back at the same key). -/
def TicketStore.patch (s : TicketStore) (id : TicketId) (p : TicketPatch) :
    Except PatchError Unit × TicketStore :=
  match s id with
  | some existing_ticket =>
      match existing_ticket.update p with
      | (Except.error e, t) =>
          (Except.error (PatchError.Mismatch e), fun k => if k = id then some t else s k)
      | (Except.ok _, t) =>
          (Except.ok (), fun k => if k = id then some t else s k)
  | none => (Except.error (PatchError.NotFound id), s)

/-! ## Store and update theorems -/

/-- C1: a patch whose id differs from the ticket's id makes Ticket::update
fail with IdentityMismatch carrying both ids and leaves the ticket unchanged;
TicketStore::patch propagates the same error wrapped transparently in
Mismatch and leaves every store entry unchanged. -/
theorem update_mismatch_fails (t : Ticket) (p : TicketPatch) (h : t.id ≠ p.id) :
    t.update p = (Except.error { original_id := t.id, patch_id := p.id }, t) ∧
    ∀ (s : TicketStore) (id : TicketId), s.get id = some t →
      (s.patch id p).1 =
        Except.error (PatchError.Mismatch { original_id := t.id, patch_id := p.id }) ∧
      ∀ k, ((s.patch id p).2).get k = s.get k := by
  have hupd : t.update p =
      (Except.error { original_id := t.id, patch_id := p.id }, t) := by
    unfold Ticket.update
    rw [if_pos h]
  refine ⟨hupd, ?_⟩
  intro s id hs
  have hs' : s id = some t := hs
  simp only [TicketStore.patch, hs', hupd]
  refine ⟨trivial, ?_⟩
  intro k
  show (if k = id then some t else s k) = s.get k
  by_cases hk : k = id
  · rw [if_pos hk, hk]
    exact hs.symm
  · rw [if_neg hk]
    rfl

/-- Witness for update_mismatch_fails at a concrete ticket, patch and store. -/
theorem update_mismatch_fails_witness :
    let t : Ticket := { title := { val := "t" }, description := { val := "d" },
                        id := { val := 1 }, status := TicketStatus.ToDo }
    let p : TicketPatch := { id := { val := 2 }, title := none,
                             description := none, status := some TicketStatus.Done }
    let s : TicketStore := TicketStore.new.insert t
    t.update p = (Except.error { original_id := { val := 1 }, patch_id := { val := 2 } }, t) ∧
    ((s.patch { val := 1 } p).1 =
      Except.error (PatchError.Mismatch
        { original_id := { val := 1 }, patch_id := { val := 2 } }) ∧
     ((s.patch { val := 1 } p).2).get { val := 1 } = s.get { val := 1 }) := by
  intro t p s
  have h := update_mismatch_fails t p (by decide)
  exact ⟨h.1, (h.2 s { val := 1 } rfl).1, (h.2 s { val := 1 } rfl).2 { val := 1 }⟩

/-- C2: patching an id with no entry fails with NotFound carrying that id and
leaves the store unchanged: every subsequent get returns what it returned
before. -/
theorem patch_notfound (s : TicketStore) (id : TicketId) (p : TicketPatch)
    (h : s.get id = none) :
    (s.patch id p).1 = Except.error (PatchError.NotFound id) ∧
    ∀ k, ((s.patch id p).2).get k = s.get k := by
  have h' : s id = none := h
  unfold TicketStore.patch
  rw [h']
  exact ⟨rfl, fun _ => rfl⟩

/-- Witness for patch_notfound on the empty store at a concrete id. -/
theorem patch_notfound_witness :
    let p : TicketPatch := { id := { val := 5 }, title := none,
                             description := none, status := none }
    (TicketStore.new.patch { val := 5 } p).1 =
      Except.error (PatchError.NotFound { val := 5 }) ∧
    ((TicketStore.new.patch { val := 5 } p).2).get { val := 9 } =
      TicketStore.new.get { val := 9 } := by
  intro p
  have h := patch_notfound TicketStore.new { val := 5 } p rfl
  exact ⟨h.1, h.2 { val := 9 }⟩

/-- C3: a patch whose id matches the ticket's id succeeds returning unit,
replaces exactly the fields supplied as some, keeps fields given as none, and
never changes the ticket's id. -/
theorem update_match_succeeds (t : Ticket) (p : TicketPatch) (h : p.id = t.id) :
    t.update p = (Except.ok (),
      { title := p.title.getD t.title,
        description := p.description.getD t.description,
        id := t.id,
        status := p.status.getD t.status }) := by
  unfold Ticket.update
  have hne : ¬ t.id ≠ p.id := by
    rw [h]
    exact fun hc => hc rfl
  rw [if_neg hne]
  rcases t with ⟨title, description, id, status⟩
  rcases p with ⟨pid, ptitle, pdesc, pstatus⟩
  cases ptitle <;> cases pdesc <;> cases pstatus <;> rfl

/-- Witness for update_match_succeeds at a concrete ticket and patch. -/
theorem update_match_succeeds_witness :
    let t : Ticket := { title := { val := "t" }, description := { val := "d" },
                        id := { val := 1 }, status := TicketStatus.ToDo }
    let p : TicketPatch := { id := { val := 1 }, title := none,
                             description := none, status := some TicketStatus.Done }
    t.update p = (Except.ok (),
      { title := { val := "t" }, description := { val := "d" },
        id := { val := 1 }, status := TicketStatus.Done }) := by
  intro t p
  exact update_match_succeeds t p rfl

/-- C4: insert always succeeds (it is a total operation in the model, as the
Rust method returns unit unconditionally), inserting or overwriting the entry
keyed by the ticket's id with last-write-wins semantics; a subsequent get on
that id returns the inserted ticket; and get on the empty store returns none
for every id. -/
theorem insert_get_roundtrip :
    (∀ id, TicketStore.new.get id = none) ∧
    (∀ (s : TicketStore) (t : Ticket), (s.insert t).get t.id = some t) ∧
    (∀ (s : TicketStore) (t1 t2 : Ticket),
      ((s.insert t1).insert t2).get t2.id = some t2) := by
  refine ⟨fun _ => rfl, ?_, ?_⟩
  · intro s t
    show (if t.id = t.id then some t else s t.id) = some t
    rw [if_pos rfl]
  · intro s t1 t2
    show (if t2.id = t2.id then some t2 else (s.insert t1) t2.id) = some t2
    rw [if_pos rfl]

/-- C10: operations are local to their target key: insert changes at most the
entry at the inserted ticket's id, and patch — succeeding or failing —
changes at most the entry at the patched id; every other entry reads the same
before and after. -/
theorem frame_other_keys :
    (∀ (s : TicketStore) (t : Ticket) (k : TicketId), k ≠ t.id →
      (s.insert t).get k = s.get k) ∧
    (∀ (s : TicketStore) (id : TicketId) (p : TicketPatch) (k : TicketId), k ≠ id →
      ((s.patch id p).2).get k = s.get k) := by
  constructor
  · intro s t k hk
    show (if k = t.id then some t else s k) = s.get k
    rw [if_neg hk]
    rfl
  · intro s id p k hk
    simp only [TicketStore.patch]
    cases hs : s id with
    | none => rfl
    | some existing_ticket =>
        rcases hu : existing_ticket.update p with ⟨r, t⟩
        cases r with
        | error e =>
            simp only [hu]
            show (if k = id then some t else s k) = s.get k
            rw [if_neg hk]
            rfl
        | ok u =>
            simp only [hu]
            show (if k = id then some t else s k) = s.get k
            rw [if_neg hk]
            rfl

/-- Witness for frame_other_keys at concrete keys distinct from the targets. -/
theorem frame_other_keys_witness :
    let t : Ticket := { title := { val := "t" }, description := { val := "d" },
                        id := { val := 1 }, status := TicketStatus.ToDo }
    let p : TicketPatch := { id := { val := 1 }, title := none,
                             description := none, status := none }
    (TicketStore.new.insert t).get { val := 2 } = TicketStore.new.get { val := 2 } ∧
    ((TicketStore.new.patch { val := 1 } p).2).get { val := 2 } =
      TicketStore.new.get { val := 2 } := by
  intro t p
  exact ⟨frame_other_keys.1 TicketStore.new t { val := 2 } (by decide),
         frame_other_keys.2 TicketStore.new { val := 1 } p { val := 2 } (by decide)⟩

/-! ## Validation theorems -/

/-- Helper: a string with a positive byte size is not empty. -/
theorem isEmpty_false_of_utf8ByteSize_pos (s : String) (h : 0 < s.utf8ByteSize) :
    s.isEmpty = false := by
  cases he : s.isEmpty
  · rfl
  · exfalso
    have hs : s = "" := (String.isEmpty_iff s).1 he
    rw [hs] at h
    exact absurd h (by decide)

/-- C5: title parsing fails on the empty string with TitleEmptyError and on
more than 50 bytes with TitleTooLongError; description parsing fails on the
empty string with DebugEmptyError and on more than 500 bytes with
DebugTooLongError; the boundary byte sizes 50 and 500 succeed; every failure
carries the rejected string. -/
theorem title_description_bounds :
    (TicketTitle.tryFrom "" = Except.error (TicketParseError.TitleEmptyError "")) ∧
    (∀ s : String, 50 < s.utf8ByteSize →
      TicketTitle.tryFrom s = Except.error (TicketParseError.TitleTooLongError s)) ∧
    (∀ s : String, s.utf8ByteSize = 50 →
      TicketTitle.tryFrom s = Except.ok { val := s }) ∧
    (TicketDescription.tryFrom "" =
      Except.error (TicketParseError.DebugEmptyError "")) ∧
    (∀ s : String, 500 < s.utf8ByteSize →
      TicketDescription.tryFrom s = Except.error (TicketParseError.DebugTooLongError s)) ∧
    (∀ s : String, s.utf8ByteSize = 500 →
      TicketDescription.tryFrom s = Except.ok { val := s }) := by
  refine ⟨rfl, ?_, ?_, rfl, ?_, ?_⟩
  · intro s h
    have h0 : s.isEmpty = false :=
      isEmpty_false_of_utf8ByteSize_pos s (Nat.lt_of_le_of_lt (Nat.zero_le 50) h)
    simp [TicketTitle.tryFrom, h0, h]
  · intro s h
    have h0 : s.isEmpty = false :=
      isEmpty_false_of_utf8ByteSize_pos s (by rw [h]; decide)
    have h1 : ¬ 50 < s.utf8ByteSize := by rw [h]; exact Nat.lt_irrefl 50
    simp [TicketTitle.tryFrom, h0, h1]
  · intro s h
    have h0 : s.isEmpty = false :=
      isEmpty_false_of_utf8ByteSize_pos s (Nat.lt_of_le_of_lt (Nat.zero_le 500) h)
    simp [TicketDescription.tryFrom, h0, h]
  · intro s h
    have h0 : s.isEmpty = false :=
      isEmpty_false_of_utf8ByteSize_pos s (by rw [h]; decide)
    have h1 : ¬ 500 < s.utf8ByteSize := by rw [h]; exact Nat.lt_irrefl 500
    simp [TicketDescription.tryFrom, h0, h1]

set_option maxRecDepth 8000 in
/-- Witness for title_description_bounds at concrete strings of byte sizes
51, 50, 501 and 500. -/
theorem title_description_bounds_witness :
    (TicketTitle.tryFrom (String.mk (List.replicate 51 'a')) =
      Except.error (TicketParseError.TitleTooLongError (String.mk (List.replicate 51 'a')))) ∧
    (TicketTitle.tryFrom (String.mk (List.replicate 50 'a')) =
      Except.ok { val := String.mk (List.replicate 50 'a') }) ∧
    (TicketDescription.tryFrom (String.mk (List.replicate 501 'a')) =
      Except.error (TicketParseError.DebugTooLongError (String.mk (List.replicate 501 'a')))) ∧
    (TicketDescription.tryFrom (String.mk (List.replicate 500 'a')) =
      Except.ok { val := String.mk (List.replicate 500 'a') }) :=
  ⟨title_description_bounds.2.1 (String.mk (List.replicate 51 'a')) (by decide),
   title_description_bounds.2.2.1 (String.mk (List.replicate 50 'a')) (by decide),
   title_description_bounds.2.2.2.2.1 (String.mk (List.replicate 501 'a')) (by decide),
   title_description_bounds.2.2.2.2.2 (String.mk (List.replicate 500 'a')) (by decide)⟩

/-- C6: status parsing succeeds exactly when the lowercased input is one of
the three recognized tokens, yielding the corresponding status; every other
input fails with StatusParseError carrying the original string. -/
theorem status_parse_cases (v : String) :
    (TicketStatus.tryFrom v = Except.ok TicketStatus.ToDo ↔ toLowercase v = "todo") ∧
    (TicketStatus.tryFrom v = Except.ok TicketStatus.InProgress ↔
      toLowercase v = "inprogress") ∧
    (TicketStatus.tryFrom v = Except.ok TicketStatus.Done ↔ toLowercase v = "done") ∧
    (toLowercase v ≠ "todo" → toLowercase v ≠ "inprogress" → toLowercase v ≠ "done" →
      TicketStatus.tryFrom v = Except.error (TicketParseError.StatusParseError v)) := by
  unfold TicketStatus.tryFrom
  split_ifs with h1 h2 h3 <;> simp_all

/-- Witness for status_parse_cases at concrete inputs: the uppercased token
TODO parses case-insensitively, and an unrecognized token fails carrying the
original string. -/
theorem status_parse_cases_witness :
    TicketStatus.tryFrom "TODO" = Except.ok TicketStatus.ToDo ∧
    TicketStatus.tryFrom "xyz" =
      Except.error (TicketParseError.StatusParseError "xyz") :=
  ⟨((status_parse_cases "TODO").1).2 (by decide),
   ((status_parse_cases "xyz").2.2.2) (by decide) (by decide) (by decide)⟩

/-! ## Actor front-ends (exercises 07_threads)

Channels are modelled by numeric identities: an allocator state is the next
unused identity, and creating a channel returns the new channel's identity
together with the advanced allocator.  Cloning a Sender, or an Arc around a
Receiver, yields a handle to the same underlying channel, hence the same
identity. -/

/-- Creation of one mpsc channel (or a one-shot reply channel): returns the
fresh channel identity and the advanced allocator. -/
def mkChannel (alloc : Nat) : Nat × Nat := (alloc, alloc + 1)

namespace Ack07

/-- Modelled from the spec: the store module of exercise 07_ack is not under
src (only its caller, the server loop, is).  Per the spec, the Store is a
mapping from TicketId to Ticket. -/
def Store := TicketId → Option Ticket

/-- Modelled from the spec: the empty store maps every id to absent. -/
def Store.new : Store := fun _ => none

/-- Modelled from the spec: get(id) returns a value copy of the stored
ticket, or an absent result if no entry exists. -/
def Store.get (s : Store) (id : TicketId) : Option Ticket := s id

/-- The Get arm of the server loop in 07_ack lib.rs: the worker looks the id
up in the store and replies with Some(tk.unwrap().clone()).  The unwrap on an
absent lookup aborts the worker; the abort is modelled as none, and a normal
reply as some of the payload sent back. -/
def serverGetReply (store : Store) (id : TicketId) : Option (Option Ticket) :=
  match store.get id with
  | some tk => some (some tk)
  | none => none

end Ack07

/-- C7: evaluating the 07_ack server Get arm at an absent id.  Contrary to
the claim, the unwrap branch of the Get arm is reachable: on the empty store
every lookup takes it, so the worker aborts (modelled as none) instead of
surfacing a normal absent reply. -/
theorem ack_server_get_absent_aborts :
    Ack07.serverGetReply Ack07.Store.new { val := 0 } = none := rfl

namespace Client08

/-- TicketStoreClient from 08_client lib.rs: the handle stores the command
sender and both response channel endpoints created at launch (the senders,
and the receivers shared through Arc), each recorded by channel identity. -/
structure TicketStoreClient where
  cmd_sender : Nat
  insert_response_sender : Nat
  insert_response_receiver : Nat
  get_response_sender : Nat
  get_response_receiver : Nat
deriving DecidableEq, Repr

/-- derive(Clone) for TicketStoreClient in 08_client lib.rs: every field is
cloned, and cloning a Sender or an Arc around a Receiver refers to the same
underlying channel, so the clone carries identical channel identities. -/
def TicketStoreClient.clone (c : TicketStoreClient) : TicketStoreClient := c

/-- launch from 08_client lib.rs: creates the command channel and the two
response channels once and stores all their endpoints in the handle (the
sender and receiver of one channel share its identity). -/
def launch (alloc : Nat) : TicketStoreClient × Nat :=
  let cmd := mkChannel alloc
  let ins := mkChannel cmd.2
  let g := mkChannel ins.2
  ({ cmd_sender := cmd.1,
     insert_response_sender := ins.1, insert_response_receiver := ins.1,
     get_response_sender := g.1, get_response_receiver := g.1 }, g.2)

/-- Reply channel used by TicketStoreClient::insert in 08_client lib.rs: the
call clones the stored insert_response_sender into the command and then
receives on the stored shared receiver; no new channel is created, so the
allocator is returned unchanged. -/
def TicketStoreClient.insertReplyChannel (c : TicketStoreClient) (alloc : Nat) :
    Nat × Nat :=
  (c.insert_response_sender, alloc)

/-- Reply channel used by TicketStoreClient::get in 08_client lib.rs: the
stored get_response_sender, with no new channel created. -/
def TicketStoreClient.getReplyChannel (c : TicketStoreClient) (alloc : Nat) :
    Nat × Nat :=
  (c.get_response_sender, alloc)

end Client08

namespace Bounded09

/-- TicketStoreClient from 09_bounded lib.rs: the handle holds only the
outbound command sender. -/
structure TicketStoreClient where
  sender : Nat
deriving DecidableEq, Repr

/-- derive(Clone) for TicketStoreClient in 09_bounded lib.rs: duplicates the
command sender (same channel identity) and nothing else, the struct having
no other field. -/
def TicketStoreClient.clone (c : TicketStoreClient) : TicketStoreClient := c

/-- Reply channel used by TicketStoreClient::insert in 09_bounded lib.rs:
let (tx, rx) = mpsc::channel() constructs a fresh channel for this one call. -/
def TicketStoreClient.insertReplyChannel (c : TicketStoreClient) (alloc : Nat) :
    Nat × Nat :=
  mkChannel alloc

/-- Reply channel used by TicketStoreClient::get in 09_bounded lib.rs: a
fresh channel for this one call. -/
def TicketStoreClient.getReplyChannel (c : TicketStoreClient) (alloc : Nat) :
    Nat × Nat :=
  mkChannel alloc

/-- Kinds of command queue a launch can construct: mpsc::channel() is
unbounded, mpsc::sync_channel(capacity) is bounded with blocking-send
backpressure. -/
inductive ChannelKind
  | unbounded
  | bounded (capacity : Nat)
deriving DecidableEq, Repr

/-- Command channel construction performed by launch in 09_bounded lib.rs:
the source calls mpsc::channel() — the unbounded constructor — and never
reads the capacity argument. -/
def launchChannelKind (capacity : Nat) : ChannelKind := ChannelKind.unbounded

end Bounded09

/-- C8 counterexample: in 08_client, with the client freshly launched, an
insert call uses a reply channel whose identity lies strictly below the
allocator frontier — a channel created at launch, not a fresh one — and a
cloned handle's insert call uses the very same reply channel, whose shared
receiver the clone also carries.  This refutes the claim that every call
constructs a fresh one-shot reply channel and that cloning duplicates only
the command sender. -/
theorem client08_shared_reply_channel :
    (((Client08.launch 0).1).insertReplyChannel ((Client08.launch 0).2)).1 <
      (Client08.launch 0).2 ∧
    ((((Client08.launch 0).1).clone).insertReplyChannel ((Client08.launch 0).2)).1 =
      (((Client08.launch 0).1).insertReplyChannel ((Client08.launch 0).2)).1 ∧
    (((Client08.launch 0).1).clone).insert_response_receiver =
      ((Client08.launch 0).1).insert_response_receiver := by decide

/-- C8 amended: in the bounded variant (09_bounded) every insert or get call
constructs a fresh one-shot reply channel — the allocator's next identity,
advancing the allocator — and the handle consists of the command sender
alone, so cloning duplicates only that sender; in 08_client, by contrast,
every call reuses the response channels created once at launch, and cloning
duplicates those shared response endpoints as well. -/
theorem reply_channel_usage :
    (∀ (c : Bounded09.TicketStoreClient) (alloc : Nat),
      c.insertReplyChannel alloc = (alloc, alloc + 1) ∧
      c.getReplyChannel alloc = (alloc, alloc + 1)) ∧
    (∀ c : Bounded09.TicketStoreClient, c.clone.sender = c.sender) ∧
    (∀ (c : Client08.TicketStoreClient) (alloc : Nat),
      c.insertReplyChannel alloc = (c.insert_response_sender, alloc) ∧
      c.getReplyChannel alloc = (c.get_response_sender, alloc)) ∧
    (∀ c : Client08.TicketStoreClient,
      c.clone.insert_response_receiver = c.insert_response_receiver ∧
      c.clone.get_response_receiver = c.get_response_receiver) :=
  ⟨fun _ _ => ⟨rfl, rfl⟩, fun _ => rfl, fun _ _ => ⟨rfl, rfl⟩, fun _ => ⟨rfl, rfl⟩⟩

/-- C9: the command channel constructed by launch in 09_bounded is the
unbounded one for every capacity; in particular launch(1) does not build a
queue bounded at 1, so the capacity argument is ignored and no backpressure
bound exists — contradicting the claim (and the file's own TODO note asking
for bounded channels). -/
theorem bounded09_launch_unbounded :
    (∀ capacity, Bounded09.launchChannelKind capacity = Bounded09.ChannelKind.unbounded) ∧
    Bounded09.launchChannelKind 1 ≠ Bounded09.ChannelKind.bounded 1 :=
  ⟨fun _ => rfl, by decide⟩
